import Mathlib

/-!
Verification of the WhatsApp order-taking webhook (`src/app/main.py`).

The webhook handler `whatsapp_webhook` is embedded as a pure function of
its external inputs: the business configuration (result of
`get_business_config`, `none` when the BusinessConfig sheet row is
missing), the raw rows of the Products sheet (the backing store read by
`get_products`), the inbound message body and phone, and the
timestamp-derived order id produced inside `save_order`.  The call to
`save_order` is modelled by the optional second component of the result:
`some (phone, items, total)` exactly when the code reaches
`save_order(phone, items, total)`, `none` on every other path.

Python string operations are modelled character-for-character on
`List Char`: `str.strip` (ASCII/common whitespace), `str.lower` (ASCII
case folding), membership (`"x" in s`), and `s.split("x", 1)`.
`int(...)` is modelled by `parseInt?` (optional sign followed by decimal
digits) and `float(...)` by `parseFloat?` (optional sign, decimal digits
with at most one point), matching the literal forms used in the sheets;
float values are modelled as exact rationals, and the f-string rendering
of a float value by `formatNum`, which agrees with Python's shortest
decimal representation on the exactly-representable decimals involved.
-/

/-- A character is Python whitespace (the ASCII cases of `str.strip`). -/
def isSpaceChar (c : Char) : Bool :=
  c == ' ' || c == '\t' || c == '\n' || c == '\r' || c == '\x0b' || c == '\x0c'

/-- Strip whitespace from both ends of a character list (`str.strip`). -/
def stripList (l : List Char) : List Char :=
  ((l.dropWhile isSpaceChar).reverse.dropWhile isSpaceChar).reverse

/-- Python `str.strip()`. -/
def pyStrip (s : String) : String := ⟨stripList s.data⟩

/-- ASCII lowercasing of one character (`str.lower` on the ASCII range). -/
def lowerChar (c : Char) : Char :=
  if 65 ≤ c.toNat ∧ c.toNat ≤ 90 then Char.ofNat (c.toNat + 32) else c

/-- Python `str.lower()` (ASCII case folding). -/
def pyLower (s : String) : String := ⟨s.data.map lowerChar⟩

/-- Structural equality of character lists. -/
def charListEq : List Char → List Char → Bool
  | [], [] => true
  | a :: as, b :: bs => a == b && charListEq as bs
  | _, _ => false

/-- String equality, as Python `==` on `str`. -/
def strEq (a b : String) : Bool := charListEq a.data b.data

/-- `needle` occurs at the start of `hay`. -/
def listHasPre : List Char → List Char → Bool
  | [], _ => true
  | _ :: _, [] => false
  | a :: as, b :: bs => a == b && listHasPre as bs

/-- `needle` occurs somewhere in `hay` (Python `needle in hay`). -/
def listHasSub (needle : List Char) : List Char → Bool
  | [] => needle.isEmpty
  | b :: bs => listHasPre needle (b :: bs) || listHasSub needle bs

/-- Python substring containment `needle in hay`. -/
def strHasSub (hay needle : String) : Bool := listHasSub needle.data hay.data

/-- `s.split("x", 1)` on a character list: the part before the first `x`
and everything after it (the whole list and `[]` when there is no `x`,
a case the handler never reaches because it is guarded by
`"x" in incoming_msg`). -/
def splitXList : List Char → List Char × List Char
  | [] => ([], [])
  | c :: cs =>
    if c == 'x' then ([], cs)
    else
      let r := splitXList cs
      (c :: r.1, r.2)

/-- Python `incoming_msg.split("x", 1)` as a pair of strings. -/
def splitX (m : String) : String × String :=
  let r := splitXList m.data
  (⟨r.1⟩, ⟨r.2⟩)

/-- ASCII decimal digit. -/
def isDigitChar (c : Char) : Bool := 48 ≤ c.toNat && c.toNat ≤ 57

/-- Value of a digit list, most significant first (0 for `[]`). -/
def digitsVal : List Char → Nat
  | [] => 0
  | c :: cs => (c.toNat - 48) * 10 ^ cs.length + digitsVal cs

/-- A nonempty all-digit list read as a natural number. -/
def digitsToNat? (l : List Char) : Option Nat :=
  if l.isEmpty then none
  else if l.all isDigitChar then some (digitsVal l) else none

/-- Python `int(s)` on an already-stripped character list: optional sign,
then decimal digits. -/
def parseIntList? : List Char → Option Int
  | '+' :: rest => (digitsToNat? rest).map Int.ofNat
  | '-' :: rest => (digitsToNat? rest).map (fun n => -(n : Int))
  | rest => (digitsToNat? rest).map Int.ofNat

/-- Python `int(s)` (decimal literals; failure is `none`). -/
def parseInt? (s : String) : Option Int := parseIntList? (stripList s.data)

/-- Unsigned decimal literal with at most one point: `"12"`, `"12.5"`,
`"12."`, `".5"`; at least one digit overall.  The value
`intPart.fracPart` is built as one quotient over a power of ten. -/
def parseDecimal? (l : List Char) : Option ℚ :=
  let intPart := l.takeWhile (fun c => !(c == '.'))
  let rest := l.drop intPart.length
  match rest with
  | [] => (digitsToNat? intPart).map (fun n => (n : ℚ))
  | _ :: fracPart =>
    if intPart.all isDigitChar && fracPart.all isDigitChar
        && !(intPart.isEmpty && fracPart.isEmpty) && !fracPart.contains '.' then
      some (mkRat (digitsVal intPart * 10 ^ fracPart.length + digitsVal fracPart)
        (10 ^ fracPart.length))
    else none

/-- Python `float(s)` restricted to the decimal literals used in price
cells (optional surrounding whitespace and sign; no exponent form). -/
def parseFloat? (s : String) : Option ℚ :=
  match stripList s.data with
  | '+' :: rest => parseDecimal? rest
  | '-' :: rest => (parseDecimal? rest).map Neg.neg
  | rest => parseDecimal? rest

/-- Decimal digit character for `n < 10`. -/
def digitChar (n : Nat) : Char := Char.ofNat (48 + n)

/-- Decimal digits of `n`, most significant first (fuel-structural). -/
def natDigitsAux : Nat → Nat → List Char
  | 0, _ => []
  | fuel + 1, n =>
    if n < 10 then [digitChar n]
    else natDigitsAux fuel (n / 10) ++ [digitChar (n % 10)]

/-- Python `str(n)` for a natural number. -/
def natToStr (n : Nat) : String := ⟨natDigitsAux (n + 1) n⟩

/-- Python `str(i)` for an integer. -/
def intToStr (i : Int) : String :=
  if i < 0 then "-" ++ natToStr i.natAbs else natToStr i.natAbs

/-- Fractional digits of `n / d` (with `n < d`), no trailing zeros. -/
def fracDigitsAux : Nat → Nat → Nat → List Char
  | 0, _, _ => []
  | fuel + 1, n, d =>
    if n = 0 then []
    else digitChar (n * 10 / d) :: fracDigitsAux fuel (n * 10 % d) d

/-- Multiplication of rationals, written through `mkRat` so that concrete
values reduce; `ratMul_eq_mul` identifies it with `*` on `ℚ`. -/
def ratMul (a b : ℚ) : ℚ := mkRat (a.num * b.num) (a.den * b.den)

/-- Python f-string rendering of a float value holding an exact decimal:
integer part, a point, and the fractional digits (`"19.0"`, `"7.5"`). -/
def formatNum (q : ℚ) : String :=
  let sign := if q.num < 0 then "-" else ""
  let n := q.num.natAbs
  let d := q.den
  let frac := fracDigitsAux 30 (n % d) d
  sign ++ natToStr (n / d) ++ "." ++ (if frac.isEmpty then "0" else ⟨frac⟩)

/-- The business configuration returned by `get_business_config`
(`BusinessConfig!A2:F2` row, defaulted fields already applied). -/
structure Config where
  business_name : String
  order_mode : String
  currency_symbol : String
  hours : String
  address : String
  menu_page_size : Int
deriving DecidableEq, Repr

/-- One effective catalog product as built by `get_products`. -/
structure Product where
  product_id : String
  number : String
  name : String
  price : ℚ
deriving DecidableEq, Repr

/-- One order line item as built in the webhook's success path. -/
structure LineItem where
  product_id : String
  name : String
  qty : Int
  price : ℚ
deriving DecidableEq, Repr

/-- The arguments the code passes to `save_order(phone, items, total)`. -/
structure SavedOrder where
  phone : String
  items : List LineItem
  total : ℚ
deriving DecidableEq, Repr

/-- `get_products`: keep a sheet row only if it has at least 5 cells, its
price cell parses as a float, and its active cell, stripped and
lowercased, equals `"true"`; the kept product's number and name are
stripped. -/
def get_products : List (List String) → List Product
  | [] => []
  | row :: rest =>
    if row.length < 5 then get_products rest
    else
      match parseFloat? (row.getD 3 "") with
      | none => get_products rest
      | some price =>
        if strEq (pyLower (pyStrip (row.getD 4 ""))) "true" then
          ⟨row.getD 0 "", pyStrip (row.getD 1 ""), pyStrip (row.getD 2 ""), price⟩
            :: get_products rest
        else get_products rest

/-- The greeting list of the menu-intent test. -/
def greetingList : List String :=
  ["hola", "buenas", "buenos dias", "buenas tardes", "buenas noches"]

/-- The menu-intent condition of the handler: the normalized message is a
greeting, or contains `"menu"`, or contains `"qué venden"`/`"que venden"`. -/
def isMenuMsg (m : String) : Bool :=
  greetingList.any (fun g => strEq m g)
    || strHasSub m "menu" || strHasSub m "qué venden" || strHasSub m "que venden"

/-- The normalization applied to the inbound body:
`(form.get("Body") or "").strip().lower()`. -/
def normalizeMsg (body : String) : String := pyLower (pyStrip body)

/-- One rendered menu line: `f"- {p['name']} — {sym}{p['price']}\n"`. -/
def menuLine (sym : String) (p : Product) : String :=
  "- " ++ p.name ++ " — " ++ sym ++ formatNum p.price ++ "\n"

/-- Concatenation of a list of strings in order (the `text +=` loop). -/
def concatLines : List String → String
  | [] => ""
  | s :: rest => s ++ concatLines rest

/-- The rendered menu text of the menu branch. -/
def menuText (config : Config) (products : List Product) : String :=
  "👋 Hola, bienvenido a " ++ config.business_name ++ ".\n\n"
    ++ "Esto es lo que tenemos hoy:\n\n"
    ++ concatLines (products.map (menuLine config.currency_symbol))
    ++ "\nPara ordenar, escribe por ejemplo: 2001 x 2"

/-- `next((p for p in products if p["number"] == number), None)`. -/
def resolveProduct (products : List Product) (number : String) : Option Product :=
  products.find? (fun p => strEq p.number number)

/-- The order confirmation message of the success path. -/
def confirmMsg (config : Config) (qty : Int) (name : String) (total : ℚ)
    (orderId : String) : String :=
  "✅ ¡Pedido recibido!\n" ++ intToStr qty ++ " x " ++ name
    ++ "\nTotal: " ++ config.currency_symbol ++ formatNum total
    ++ "\nPedido: #" ++ orderId ++ "\n\nTe avisaremos cuando esté listo 🙌"

/-- The order branch of the handler (the `if "x" in incoming_msg` block):
split on the first `x`, parse the quantity, validate it, resolve the
product, and on success compute the total, build the single line item,
save the order and render the confirmation. -/
def handleOrder (config : Config) (rows : List (List String))
    (m phone orderId : String) : String × Option SavedOrder :=
  let lr := splitX m
  let number := pyStrip lr.1
  match parseInt? lr.2 with
  | none => ("Formato inválido. Usa: 2001 x 2", none)
  | some qty =>
    if qty ≤ 0 then ("La cantidad debe ser mayor a 0. Ejemplo: 2001 x 2", none)
    else
      match resolveProduct (get_products rows) number with
      | none => ("Producto no encontrado. Escribe MENU para ver opciones.", none)
      | some selected =>
        let total := ratMul selected.price (qty : ℚ)
        let items : List LineItem := [⟨selected.product_id, selected.name, qty, selected.price⟩]
        (confirmMsg config qty selected.name total orderId, some ⟨phone, items, total⟩)

/-- The menu branch of the handler. -/
def handleMenu (config : Config) (rows : List (List String)) :
    String × Option SavedOrder :=
  let products := get_products rows
  if products.isEmpty then ("⚠️ No hay productos activos en la hoja Products.", none)
  else (menuText config products, none)

/-- The webhook handler `whatsapp_webhook`, as a function of the business
configuration, the Products sheet rows, the message body, the sender's
phone and the timestamp-derived order id.  The second component records
the `save_order` call of the success path. -/
def whatsapp_webhook (config? : Option Config) (rows : List (List String))
    (body phone orderId : String) : String × Option SavedOrder :=
  let m := normalizeMsg body
  match config? with
  | none => ("⚠️ Error de configuración del negocio. Revisa BusinessConfig.", none)
  | some config =>
    if isMenuMsg m then handleMenu config rows
    else if strHasSub m "x" then handleOrder config rows m phone orderId
    else ("Escribe MENU para ver opciones, o envía tu pedido (ej: 2001 x 2).", none)

/-- The Taco Shop example configuration of the spec's scenarios. -/
def tacoConfig : Config := ⟨"Taco Shop", "pickup", "$", "", "", 8⟩

/-- The one-product Taco catalog rows of the spec's scenarios. -/
def tacoRows : List (List String) := [["p1", "1", "Taco", "2.5", "true"]]

/-! ### Helper lemmas -/

theorem ratMul_eq_mul (a b : ℚ) : ratMul a b = a * b := by
  rw [ratMul, Rat.mkRat_eq_div]
  push_cast
  rw [← div_mul_div_comm, Rat.num_div_den, Rat.num_div_den]

theorem charListEq_iff : ∀ a b : List Char, charListEq a b = true ↔ a = b
  | [], [] => by simp [charListEq]
  | [], _ :: _ => by simp [charListEq]
  | _ :: _, [] => by simp [charListEq]
  | a :: as, b :: bs => by
    simp [charListEq, charListEq_iff as bs]

theorem strEq_iff (a b : String) : strEq a b = true ↔ a = b := by
  rw [strEq, charListEq_iff]
  exact ⟨fun h => by cases a; cases b; exact congrArg String.mk h,
    fun h => congrArg String.data h⟩

theorem strData_append (a b : String) : (a ++ b).data = a.data ++ b.data := by
  cases a
  cases b
  rfl

theorem listHasPre_refl : ∀ n : List Char, listHasPre n n = true
  | [] => rfl
  | c :: cs => by simp [listHasPre, listHasPre_refl cs]

theorem listHasPre_append_r : ∀ {n l : List Char} (ys : List Char),
    listHasPre n l = true → listHasPre n (l ++ ys) = true
  | [], _, _, _ => rfl
  | _ :: _, [], _, h => by simp [listHasPre] at h
  | a :: as, b :: bs, ys, h => by
    simp only [listHasPre, Bool.and_eq_true] at h
    simp [listHasPre, h.1, listHasPre_append_r ys h.2]

theorem listHasPre_self_append (n ys : List Char) : listHasPre n (n ++ ys) = true :=
  listHasPre_append_r ys (listHasPre_refl n)

theorem listHasSub_nil (hay : List Char) : listHasSub [] hay = true := by
  cases hay <;> simp [listHasSub, listHasPre]

theorem listHasSub_of_pre {n l : List Char} (h : listHasPre n l = true) :
    listHasSub n l = true := by
  cases l with
  | nil =>
    cases n with
    | nil => rfl
    | cons c cs => simp [listHasPre] at h
  | cons b bs => simp [listHasSub, h]

theorem listHasSub_cons {n l : List Char} (c : Char) (h : listHasSub n l = true) :
    listHasSub n (c :: l) = true := by
  simp [listHasSub, h]

theorem listHasSub_append_l {n l : List Char} (xs : List Char) (h : listHasSub n l = true) :
    listHasSub n (xs ++ l) = true := by
  induction xs with
  | nil => exact h
  | cons x xs ih => simpa using listHasSub_cons x ih

theorem listHasSub_append_r {n l : List Char} (ys : List Char) (h : listHasSub n l = true) :
    listHasSub n (l ++ ys) = true := by
  induction l with
  | nil =>
    simp only [listHasSub, List.isEmpty_iff] at h
    subst h
    simpa using listHasSub_nil ys
  | cons b bs ih =>
    simp only [listHasSub, Bool.or_eq_true] at h
    rcases h with h | h
    · simpa [listHasSub] using Or.inl (listHasPre_append_r ys h)
    · simpa [listHasSub] using Or.inr (ih h)

theorem strHasSub_refl (s : String) : strHasSub s s = true :=
  listHasSub_of_pre (listHasPre_refl s.data)

theorem strHasSub_append_left (a : String) {b n : String} (h : strHasSub b n = true) :
    strHasSub (a ++ b) n = true := by
  rw [strHasSub, strData_append]
  exact listHasSub_append_l a.data h

theorem strHasSub_append_right (b : String) {a n : String} (h : strHasSub a n = true) :
    strHasSub (a ++ b) n = true := by
  rw [strHasSub, strData_append]
  exact listHasSub_append_r b.data h

theorem strHasSub_concatLines {s : String} :
    ∀ {lst : List String}, s ∈ lst → strHasSub (concatLines lst) s = true := by
  intro lst h
  induction lst with
  | nil => cases h
  | cons hd tl ih =>
    rcases List.mem_cons.mp h with rfl | hmem
    · exact strHasSub_append_right (concatLines tl) (strHasSub_refl s)
    · exact strHasSub_append_left hd (ih hmem)

theorem lowerChar_toNat_of_upper {c : Char} (h : 65 ≤ c.toNat ∧ c.toNat ≤ 90) :
    (lowerChar c).toNat = c.toNat + 32 := by
  have hv : (c.toNat + 32).isValidChar := Or.inl (by omega)
  rw [lowerChar, if_pos h]
  unfold Char.ofNat
  rw [dif_pos hv]
  rfl

/-- A lowercased character is never an uppercase ASCII letter. -/
theorem lowerChar_not_upper (c : Char) :
    (decide (65 ≤ (lowerChar c).toNat) && decide ((lowerChar c).toNat ≤ 90)) = false := by
  by_cases h : 65 ≤ c.toNat ∧ c.toNat ≤ 90
  · have ht := lowerChar_toNat_of_upper h
    simp only [ht]
    simp
    omega
  · rw [lowerChar, if_neg h]
    simp
    omega

theorem mem_dropWhile {p : Char → Bool} {c : Char} :
    ∀ {l : List Char}, c ∈ l.dropWhile p → c ∈ l := by
  intro l h
  induction l with
  | nil => simp at h
  | cons x xs ih =>
    rw [List.dropWhile_cons] at h
    split at h
    · exact List.mem_cons_of_mem x (ih h)
    · exact h

theorem mem_stripList {c : Char} {l : List Char} (h : c ∈ stripList l) : c ∈ l := by
  rw [stripList, List.mem_reverse] at h
  have h2 := mem_dropWhile h
  rw [List.mem_reverse] at h2
  exact mem_dropWhile h2

theorem mem_splitXList_left {c : Char} :
    ∀ {l : List Char}, c ∈ (splitXList l).1 → c ∈ l := by
  intro l h
  induction l with
  | nil => simp [splitXList] at h
  | cons x xs ih =>
    rw [splitXList] at h
    split at h
    · simp at h
    · rcases List.mem_cons.mp h with rfl | hmem
      · exact List.mem_cons_self c xs
      · exact List.mem_cons_of_mem x (ih hmem)

/-- The active-flag test applied to a sheet row:
`str(row[4]).strip().lower() == "true"`. -/
def rowActive (row : List String) : Bool :=
  strEq (pyLower (pyStrip (row.getD 4 ""))) "true"

/-- A sheet row that survives all of `get_products`' guards: at least 5
cells, parsable price, active flag `"true"`. -/
def goodRow (row : List String) : Bool :=
  !(decide (row.length < 5)) && (parseFloat? (row.getD 3 "")).isSome && rowActive row

/-- An uppercase ASCII letter occurs in the string. -/
def hasUpperAscii (s : String) : Bool :=
  s.data.any (fun c => decide (65 ≤ c.toNat) && decide (c.toNat ≤ 90))

theorem get_products_filter (rows : List (List String)) :
    get_products (rows.filter goodRow) = get_products rows := by
  induction rows with
  | nil => rfl
  | cons row rest ih =>
    by_cases h5 : row.length < 5
    · have hg : goodRow row = false := by simp [goodRow, h5]
      rw [List.filter_cons]
      simp only [hg, Bool.false_eq_true, if_false]
      rw [ih]
      conv_rhs => rw [get_products]
      rw [if_pos h5]
    · cases hpr : parseFloat? (row.getD 3 "") with
      | none =>
        have hg : goodRow row = false := by
          simp only [goodRow, hpr]
          simp
        rw [List.filter_cons]
        simp only [hg, Bool.false_eq_true, if_false]
        rw [ih]
        conv_rhs => rw [get_products]
        rw [if_neg h5, hpr]
      | some price =>
        by_cases hact : rowActive row = true
        · have hg : goodRow row = true := by
            simp only [goodRow, hpr, hact]
            simp [h5]
          rw [List.filter_cons]
          simp only [hg, if_true]
          rw [get_products, if_neg h5, hpr]
          rw [show strEq (pyLower (pyStrip (row.getD 4 ""))) "true" = true from hact]
          simp only [if_true]
          rw [ih]
          conv_rhs => rw [get_products]
          rw [if_neg h5, hpr]
          rw [show strEq (pyLower (pyStrip (row.getD 4 ""))) "true" = true from hact]
          simp
        · have hact' : rowActive row = false := by
            cases h : rowActive row
            · rfl
            · exact absurd h hact
          have hg : goodRow row = false := by simp [goodRow, hact']
          rw [List.filter_cons]
          simp only [hg, Bool.false_eq_true, if_false]
          rw [ih]
          conv_rhs => rw [get_products]
          rw [if_neg h5, hpr]
          rw [show strEq (pyLower (pyStrip (row.getD 4 ""))) "true" = false from hact']
          simp

theorem get_products_mem {p : Product} :
    ∀ {rows : List (List String)}, p ∈ get_products rows →
      ∃ row, row ∈ rows ∧ goodRow row = true ∧ rowActive row = true ∧
        parseFloat? (row.getD 3 "") = some p.price := by
  intro rows hp
  induction rows with
  | nil => simp [get_products] at hp
  | cons row rest ih =>
    by_cases h5 : row.length < 5
    · rw [get_products, if_pos h5] at hp
      rcases ih hp with ⟨r, hr, hgood, hact, hpr⟩
      exact ⟨r, List.mem_cons_of_mem row hr, hgood, hact, hpr⟩
    · cases hpr : parseFloat? (row.getD 3 "") with
      | none =>
        rw [get_products, if_neg h5, hpr] at hp
        rcases ih hp with ⟨r, hr, hgood, hact, hpr'⟩
        exact ⟨r, List.mem_cons_of_mem row hr, hgood, hact, hpr'⟩
      | some price =>
        cases hact : strEq (pyLower (pyStrip (row.getD 4 ""))) "true" with
        | false =>
          rw [get_products, if_neg h5, hpr, hact] at hp
          simp only [Bool.false_eq_true, if_false] at hp
          rcases ih hp with ⟨r, hr, hgood, hactr, hpr'⟩
          exact ⟨r, List.mem_cons_of_mem row hr, hgood, hactr, hpr'⟩
        | true =>
          rw [get_products, if_neg h5, hpr, hact] at hp
          simp only [if_true] at hp
          rcases List.mem_cons.mp hp with rfl | hmem
          · refine ⟨row, List.mem_cons_self row rest, ?_, hact, ?_⟩
            · simp only [goodRow, hpr, rowActive, hact]
              simp [h5]
            · exact hpr
          · rcases ih hmem with ⟨r, hr, hgood, hactr, hpr'⟩
            exact ⟨r, List.mem_cons_of_mem row hr, hgood, hactr, hpr'⟩

/-- One-product catalog rows used in several scenarios: product number
`"2001"` at price 9.5. -/
def comboRows : List (List String) := [["p7", "2001", "Combo", "9.5", "true"]]

/-- Rows whose only product is inactive, so the effective catalog is
empty. -/
def inactiveRows : List (List String) := [["p1", "1", "Taco", "2.5", "false"]]

/-- Rows with one product number containing an uppercase letter and a
second product carrying the lowercased number. -/
def upperRows : List (List String) :=
  [["pA", "A1", "Grande", "3", "true"], ["pa", "a1", "Chico", "4", "true"]]

/-- Rows mixing a kept product with an unparsable price, an inactive
flag, and a short row. -/
def mixedRows : List (List String) :=
  [["p1", "1", "Taco", "2.5", "true"], ["p2", "2", "Soda", "abc", "true"],
   ["p3", "3", "Agua", "1.0", "false"], ["p4", "4"]]

/-! ### Claims -/

/-- C1: for every order command the processor applies a fixed validation
order with first failure winning: a non-positive quantity yields the
invalid-quantity reply for any numberToken, and otherwise a numberToken
matching no catalog product yields the product-not-found reply. -/
theorem C1_validation_order (config : Config) (rows : List (List String))
    (body phone orderId : String) (qty : Int)
    (hmenu : isMenuMsg (normalizeMsg body) = false)
    (hx : strHasSub (normalizeMsg body) "x" = true)
    (hqty : parseInt? (splitX (normalizeMsg body)).2 = some qty) :
    (qty ≤ 0 →
      (whatsapp_webhook (some config) rows body phone orderId).1 =
        "La cantidad debe ser mayor a 0. Ejemplo: 2001 x 2") ∧
    (0 < qty →
      resolveProduct (get_products rows) (pyStrip (splitX (normalizeMsg body)).1) = none →
      (whatsapp_webhook (some config) rows body phone orderId).1 =
        "Producto no encontrado. Escribe MENU para ver opciones.") := by
  constructor
  · intro hle
    simp [whatsapp_webhook, handleOrder, hmenu, hx, hqty, hle]
  · intro hpos hnone
    have hng : ¬qty ≤ 0 := by omega
    simp [whatsapp_webhook, handleOrder, hmenu, hx, hqty, hng, hnone]

theorem C1_validation_order_witness :
    isMenuMsg (normalizeMsg "9999 x 0") = false ∧
    strHasSub (normalizeMsg "9999 x 0") "x" = true ∧
    parseInt? (splitX (normalizeMsg "9999 x 0")).2 = some 0 ∧
    (whatsapp_webhook (some tacoConfig) tacoRows "9999 x 0" "wa:1" "100").1 =
      "La cantidad debe ser mayor a 0. Ejemplo: 2001 x 2" ∧
    resolveProduct (get_products tacoRows) (pyStrip (splitX (normalizeMsg "9999 x 2")).1) = none ∧
    (whatsapp_webhook (some tacoConfig) tacoRows "9999 x 2" "wa:1" "100").1 =
      "Producto no encontrado. Escribe MENU para ver opciones." :=
  ⟨by decide, by decide, by decide,
    (C1_validation_order tacoConfig tacoRows "9999 x 0" "wa:1" "100" 0
      (by decide) (by decide) (by decide)).1 (by decide),
    by decide,
    (C1_validation_order tacoConfig tacoRows "9999 x 2" "wa:1" "100" 2
      (by decide) (by decide) (by decide)).2 (by decide) (by decide)⟩

/-- C2: on the success path of an order command the reply is the
confirmation message and exactly one line item is saved, carrying the
parsed quantity, with total equal to the resolved product's price times
that quantity. -/
theorem C2_success_total (config : Config) (rows : List (List String))
    (body phone orderId : String) (qty : Int) (selected : Product)
    (hmenu : isMenuMsg (normalizeMsg body) = false)
    (hx : strHasSub (normalizeMsg body) "x" = true)
    (hqty : parseInt? (splitX (normalizeMsg body)).2 = some qty)
    (hpos : 0 < qty)
    (hsel : resolveProduct (get_products rows) (pyStrip (splitX (normalizeMsg body)).1) =
      some selected) :
    whatsapp_webhook (some config) rows body phone orderId =
      (confirmMsg config qty selected.name (selected.price * (qty : ℚ)) orderId,
       some ⟨phone, [⟨selected.product_id, selected.name, qty, selected.price⟩],
         selected.price * (qty : ℚ)⟩) := by
  have hng : ¬qty ≤ 0 := by omega
  simp [whatsapp_webhook, handleOrder, hmenu, hx, hqty, hng, hsel, ratMul_eq_mul]

theorem C2_success_total_witness :
    isMenuMsg (normalizeMsg "1 x 3") = false ∧
    strHasSub (normalizeMsg "1 x 3") "x" = true ∧
    parseInt? (splitX (normalizeMsg "1 x 3")).2 = some 3 ∧
    resolveProduct (get_products tacoRows) (pyStrip (splitX (normalizeMsg "1 x 3")).1) =
      some ⟨"p1", "1", "Taco", mkRat 5 2⟩ ∧
    whatsapp_webhook (some tacoConfig) tacoRows "1 x 3" "wa:1" "100" =
      (confirmMsg tacoConfig 3 "Taco" (mkRat 5 2 * ((3 : Int) : ℚ)) "100",
       some ⟨"wa:1", [⟨"p1", "Taco", 3, mkRat 5 2⟩], mkRat 5 2 * ((3 : Int) : ℚ)⟩) ∧
    strHasSub (whatsapp_webhook (some tacoConfig) tacoRows "1 x 3" "wa:1" "100").1
      "3 x Taco" = true ∧
    strHasSub (whatsapp_webhook (some tacoConfig) tacoRows "1 x 3" "wa:1" "100").1
      "$7.5" = true ∧
    (whatsapp_webhook (some tacoConfig) tacoRows "1 x 3" "wa:1" "100").2 =
      some ⟨"wa:1", [⟨"p1", "Taco", 3, mkRat 5 2⟩], mkRat 15 2⟩ ∧
    (whatsapp_webhook (some tacoConfig) comboRows "2001 x 2" "wa:1" "100").2 =
      some ⟨"wa:1", [⟨"p7", "Combo", 2, mkRat 19 2⟩], (19 : ℚ)⟩ :=
  ⟨by decide, by decide, by decide, by decide,
    C2_success_total tacoConfig tacoRows "1 x 3" "wa:1" "100" 3 ⟨"p1", "1", "Taco", mkRat 5 2⟩
      (by decide) (by decide) (by decide) (by decide) (by decide),
    by decide, by decide, by decide, by decide⟩

/-- C7: for an input classified as an order command, a failing integer
parse of the right-hand side yields the user-facing format-error reply
carrying the example hint, and nothing is saved. -/
theorem C7_format_error (config : Config) (rows : List (List String))
    (body phone orderId : String)
    (hmenu : isMenuMsg (normalizeMsg body) = false)
    (hx : strHasSub (normalizeMsg body) "x" = true)
    (hfail : parseInt? (splitX (normalizeMsg body)).2 = none) :
    whatsapp_webhook (some config) rows body phone orderId =
      ("Formato inválido. Usa: 2001 x 2", none) ∧
    strHasSub "Formato inválido. Usa: 2001 x 2" "2001 x 2" = true := by
  refine ⟨?_, by decide⟩
  simp [whatsapp_webhook, handleOrder, hmenu, hx, hfail]

theorem C7_format_error_witness :
    isMenuMsg (normalizeMsg "1 x dos") = false ∧
    strHasSub (normalizeMsg "1 x dos") "x" = true ∧
    parseInt? (splitX (normalizeMsg "1 x dos")).2 = none ∧
    (whatsapp_webhook (some tacoConfig) tacoRows "1 x dos" "wa:1" "100" =
      ("Formato inválido. Usa: 2001 x 2", none) ∧
     strHasSub "Formato inválido. Usa: 2001 x 2" "2001 x 2" = true) :=
  ⟨by decide, by decide, by decide,
    C7_format_error tacoConfig tacoRows "1 x dos" "wa:1" "100"
      (by decide) (by decide) (by decide)⟩

/-- C8: with an empty effective catalog a menu request yields the
no-active-products reply, while an order command with positive quantity
yields the product-not-found reply. -/
theorem C8_empty_catalog (config : Config) (rows : List (List String))
    (body phone orderId : String) (qty : Int)
    (hempty : get_products rows = []) :
    (isMenuMsg (normalizeMsg body) = true →
      whatsapp_webhook (some config) rows body phone orderId =
        ("⚠️ No hay productos activos en la hoja Products.", none)) ∧
    (isMenuMsg (normalizeMsg body) = false →
      strHasSub (normalizeMsg body) "x" = true →
      parseInt? (splitX (normalizeMsg body)).2 = some qty → 0 < qty →
      whatsapp_webhook (some config) rows body phone orderId =
        ("Producto no encontrado. Escribe MENU para ver opciones.", none)) := by
  constructor
  · intro hm
    simp [whatsapp_webhook, handleMenu, hm, hempty]
  · intro hm hx hq hpos
    have hng : ¬qty ≤ 0 := by omega
    simp [whatsapp_webhook, handleOrder, hm, hx, hq, hng, hempty, resolveProduct]

theorem C8_empty_catalog_witness :
    get_products inactiveRows = [] ∧
    isMenuMsg (normalizeMsg "menu") = true ∧
    whatsapp_webhook (some tacoConfig) inactiveRows "menu" "wa:1" "100" =
      ("⚠️ No hay productos activos en la hoja Products.", none) ∧
    isMenuMsg (normalizeMsg "1 x 2") = false ∧
    whatsapp_webhook (some tacoConfig) inactiveRows "1 x 2" "wa:1" "100" =
      ("Producto no encontrado. Escribe MENU para ver opciones.", none) :=
  ⟨by decide, by decide,
    (C8_empty_catalog tacoConfig inactiveRows "menu" "wa:1" "100" 1 (by decide)).1 (by decide),
    by decide,
    (C8_empty_catalog tacoConfig inactiveRows "1 x 2" "wa:1" "100" 2 (by decide)).2
      (by decide) (by decide) (by decide) (by decide)⟩

/-- C4: menu detection takes precedence over order-command detection:
whenever the normalized text is one of the greetings, or contains
`"menu"`, or contains `"qué venden"` or `"que venden"`, the handler
takes the menu branch, even when the text also contains `"x"`. -/
theorem C4_menu_precedence (config : Config) (rows : List (List String))
    (body phone orderId : String)
    (h : normalizeMsg body ∈ greetingList ∨
      strHasSub (normalizeMsg body) "menu" = true ∨
      strHasSub (normalizeMsg body) "qué venden" = true ∨
      strHasSub (normalizeMsg body) "que venden" = true) :
    whatsapp_webhook (some config) rows body phone orderId = handleMenu config rows := by
  have hm : isMenuMsg (normalizeMsg body) = true := by
    rw [isMenuMsg]
    rcases h with h | h | h | h
    · have ha : greetingList.any (fun g => strEq (normalizeMsg body) g) = true :=
        List.any_eq_true.mpr ⟨normalizeMsg body, h, (strEq_iff _ _).mpr rfl⟩
      simp [ha]
    · simp [h]
    · simp [h]
    · simp [h]
  simp [whatsapp_webhook, hm]

theorem C4_menu_precedence_witness :
    strHasSub (normalizeMsg "menu x 2") "menu" = true ∧
    strHasSub (normalizeMsg "menu x 2") "x" = true ∧
    whatsapp_webhook (some tacoConfig) tacoRows "menu x 2" "wa:1" "100" =
      handleMenu tacoConfig tacoRows ∧
    (whatsapp_webhook (some tacoConfig) tacoRows "menu x 2" "wa:1" "100").2 = none :=
  ⟨by decide, by decide,
    C4_menu_precedence tacoConfig tacoRows "menu x 2" "wa:1" "100"
      (Or.inr (Or.inl (by decide))),
    by decide⟩

/-- C5: product resolution compares the trimmed numberToken and the
trimmed product number as exact strings, with no numeric coercion: a
resolved product's number is the token itself, so `"2"` and `"02"` can
never resolve to the same product. -/
theorem C5_exact_string_match (products : List Product) :
    (∀ t p, resolveProduct products t = some p → p.number = t) ∧
    (∀ p q, resolveProduct products "2" = some p →
      resolveProduct products "02" = some q → p ≠ q) := by
  have key : ∀ t p, resolveProduct products t = some p → p.number = t := by
    intro t p hp
    simp only [resolveProduct] at hp
    have h := List.find?_some hp
    exact (strEq_iff _ _).mp h
  refine ⟨key, fun p q hp hq hpq => ?_⟩
  have h2 := key _ _ hp
  have h02 := key _ _ hq
  rw [hpq] at h2
  rw [h2] at h02
  exact absurd h02 (by decide)

/-- A two-product catalog distinguishing the tokens `"2"` and `"02"`. -/
def zeroPadProducts : List Product :=
  [⟨"a", "2", "Dos", 1⟩, ⟨"b", "02", "CeroDos", 2⟩]

theorem C5_exact_string_match_witness :
    resolveProduct zeroPadProducts "2" = some ⟨"a", "2", "Dos", 1⟩ ∧
    resolveProduct zeroPadProducts "02" = some ⟨"b", "02", "CeroDos", 2⟩ ∧
    (⟨"a", "2", "Dos", (1 : ℚ)⟩ : Product) ≠ ⟨"b", "02", "CeroDos", 2⟩ :=
  ⟨by decide, by decide,
    (C5_exact_string_match zeroPadProducts).2 _ _ (by decide) (by decide)⟩

/-- C6: the effective catalog keeps exactly the rows that are long
enough, active and price-parsable: filtering the backing rows by those
guards does not change the result, and every effective product stems
from a row whose active flag normalizes to `"true"` and whose price cell
parses to the product's price. -/
theorem C6_active_parsable (rows : List (List String)) :
    get_products rows = get_products (rows.filter goodRow) ∧
    ∀ p, p ∈ get_products rows →
      ∃ row, row ∈ rows ∧ goodRow row = true ∧ rowActive row = true ∧
        parseFloat? (row.getD 3 "") = some p.price :=
  ⟨(get_products_filter rows).symm, fun _ => get_products_mem⟩

theorem C6_active_parsable_witness :
    get_products mixedRows = get_products (mixedRows.filter goodRow) ∧
    get_products mixedRows = [⟨"p1", "1", "Taco", mkRat 5 2⟩] ∧
    (⟨"p1", "1", "Taco", mkRat 5 2⟩ : Product) ∈ get_products mixedRows ∧
    (∃ row, row ∈ mixedRows ∧ goodRow row = true ∧ rowActive row = true ∧
      parseFloat? (row.getD 3 "") = some (⟨"p1", "1", "Taco", mkRat 5 2⟩ : Product).price) :=
  ⟨(C6_active_parsable mixedRows).1, by decide, by decide,
    (C6_active_parsable mixedRows).2 _ (by decide)⟩

/-- C9: an order record is saved exactly on the success path: whenever
the handler saves, the configuration was present, the message was an
order command, the quantity parsed positive and the product resolved, so
on every error path the order store is untouched. -/
theorem C9_save_only_on_success (config? : Option Config) (rows : List (List String))
    (body phone orderId : String)
    (hsave : (whatsapp_webhook config? rows body phone orderId).2.isSome = true) :
    ∃ config qty selected, config? = some config ∧
      isMenuMsg (normalizeMsg body) = false ∧
      strHasSub (normalizeMsg body) "x" = true ∧
      parseInt? (splitX (normalizeMsg body)).2 = some qty ∧
      0 < qty ∧
      resolveProduct (get_products rows) (pyStrip (splitX (normalizeMsg body)).1) =
        some selected := by
  cases config? with
  | none => simp [whatsapp_webhook] at hsave
  | some config =>
    by_cases hm : isMenuMsg (normalizeMsg body) = true
    · exfalso
      rw [whatsapp_webhook] at hsave
      simp only [hm, if_true] at hsave
      rw [handleMenu] at hsave
      split at hsave <;> simp at hsave
    · have hm' : isMenuMsg (normalizeMsg body) = false := by
        cases h : isMenuMsg (normalizeMsg body)
        · rfl
        · exact absurd h hm
      by_cases hx : strHasSub (normalizeMsg body) "x" = true
      · cases hq : parseInt? (splitX (normalizeMsg body)).2 with
        | none =>
          rw [whatsapp_webhook] at hsave
          simp [hm', hx, handleOrder, hq] at hsave
        | some qty =>
          by_cases hle : qty ≤ 0
          · rw [whatsapp_webhook] at hsave
            simp [hm', hx, handleOrder, hq, hle] at hsave
          · cases hsel : resolveProduct (get_products rows)
              (pyStrip (splitX (normalizeMsg body)).1) with
            | none =>
              rw [whatsapp_webhook] at hsave
              simp [hm', hx, handleOrder, hq, hle, hsel] at hsave
            | some selected =>
              exact ⟨config, qty, selected, rfl, hm', hx, rfl, by omega, rfl⟩
      · rw [whatsapp_webhook] at hsave
        simp [hm', hx] at hsave

theorem C9_save_only_on_success_witness :
    (whatsapp_webhook (some tacoConfig) tacoRows "1 x 3" "wa:1" "100").2.isSome = true ∧
    (∃ config qty selected, (some tacoConfig) = some config ∧
      isMenuMsg (normalizeMsg "1 x 3") = false ∧
      strHasSub (normalizeMsg "1 x 3") "x" = true ∧
      parseInt? (splitX (normalizeMsg "1 x 3")).2 = some qty ∧
      0 < qty ∧
      resolveProduct (get_products tacoRows) (pyStrip (splitX (normalizeMsg "1 x 3")).1) =
        some selected) :=
  ⟨by decide,
    C9_save_only_on_success (some tacoConfig) tacoRows "1 x 3" "wa:1" "100" (by decide)⟩

/-- C3 counterexample: for the Taco Shop scenario the menu reply does
contain the business name but does not contain the claimed itemized line
`"1) Taco - $2.5"`: the code renders `"- Taco — $2.5"` with no product
number. -/
theorem C3_menu_line_cex :
    strHasSub (whatsapp_webhook (some tacoConfig) tacoRows "MENU" "wa:1" "100").1
      "Taco Shop" = true ∧
    strHasSub (whatsapp_webhook (some tacoConfig) tacoRows "MENU" "wa:1" "100").1
      "1) Taco - $2.5" = false := by
  constructor <;> decide

/-- C3 (amended): the rendered menu for a menu request contains the
business name and one itemized line per active product in the format
`"- name — currencySymbol price"` (the product number is not shown). -/
theorem C3_menu_contents (config : Config) (rows : List (List String))
    (body phone orderId : String) (p : Product)
    (hmenu : isMenuMsg (normalizeMsg body) = true)
    (hp : p ∈ get_products rows) :
    strHasSub (whatsapp_webhook (some config) rows body phone orderId).1
      (menuLine config.currency_symbol p) = true ∧
    strHasSub (whatsapp_webhook (some config) rows body phone orderId).1
      config.business_name = true := by
  have hne : (get_products rows).isEmpty = false := by
    cases hgp : get_products rows with
    | nil => rw [hgp] at hp; cases hp
    | cons a l => rfl
  have hresp : (whatsapp_webhook (some config) rows body phone orderId).1 =
      menuText config (get_products rows) := by
    simp [whatsapp_webhook, handleMenu, hmenu, hne]
  rw [hresp, menuText]
  constructor
  · apply strHasSub_append_right
    apply strHasSub_append_left
    exact strHasSub_concatLines (List.mem_map_of_mem _ hp)
  · apply strHasSub_append_right
    apply strHasSub_append_right
    apply strHasSub_append_right
    apply strHasSub_append_right
    exact strHasSub_append_left _ (strHasSub_refl config.business_name)

theorem C3_menu_contents_witness :
    isMenuMsg (normalizeMsg "MENU") = true ∧
    (⟨"p1", "1", "Taco", mkRat 5 2⟩ : Product) ∈ get_products tacoRows ∧
    strHasSub (whatsapp_webhook (some tacoConfig) tacoRows "MENU" "wa:1" "100").1
      (menuLine tacoConfig.currency_symbol ⟨"p1", "1", "Taco", mkRat 5 2⟩) = true ∧
    strHasSub (whatsapp_webhook (some tacoConfig) tacoRows "MENU" "wa:1" "100").1
      tacoConfig.business_name = true ∧
    strHasSub (whatsapp_webhook (some tacoConfig) tacoRows "MENU" "wa:1" "100").1
      "- Taco — $2.5" = true :=
  ⟨by decide, by decide,
    (C3_menu_contents tacoConfig tacoRows "MENU" "wa:1" "100" ⟨"p1", "1", "Taco", mkRat 5 2⟩
      (by decide) (by decide)).1,
    (C3_menu_contents tacoConfig tacoRows "MENU" "wa:1" "100" ⟨"p1", "1", "Taco", mkRat 5 2⟩
      (by decide) (by decide)).2,
    by decide⟩

/-- C10 counterexample: the catalog holds product number `"A1"`
(uppercase) and product number `"a1"`; the order `"A1 x 2"` does not
yield the product-not-found reply — the lowercased token `"a1"` resolves
to the other product and the order is saved. -/
theorem C10_uppercase_cex :
    hasUpperAscii "A1" = true ∧
    (⟨"pA", "A1", "Grande", (3 : ℚ)⟩ : Product) ∈ get_products upperRows ∧
    (whatsapp_webhook (some tacoConfig) upperRows "A1 x 2" "wa:1" "100").1 ≠
      "Producto no encontrado. Escribe MENU para ver opciones." ∧
    (whatsapp_webhook (some tacoConfig) upperRows "A1 x 2" "wa:1" "100").2 =
      some ⟨"wa:1", [⟨"pa", "Chico", 2, (4 : ℚ)⟩], (8 : ℚ)⟩ := by
  refine ⟨by decide, by decide, ?_, by decide⟩
  decide

/-- C10 (amended): the numberToken is lowercased with the whole message,
while product numbers are only trimmed, so a resolved product's number
never contains an uppercase ASCII letter and a product whose number has
one can never be the resolved product; the attempt yields
ProductNotFound only when no other product carries the lowercased
number. -/
theorem C10_lowercase_token (config : Config) (rows : List (List String))
    (body phone orderId : String) (qty : Int) (selected : Product)
    (hmenu : isMenuMsg (normalizeMsg body) = false)
    (hx : strHasSub (normalizeMsg body) "x" = true)
    (hqty : parseInt? (splitX (normalizeMsg body)).2 = some qty)
    (hpos : 0 < qty)
    (hsel : resolveProduct (get_products rows) (pyStrip (splitX (normalizeMsg body)).1) =
      some selected) :
    hasUpperAscii selected.number = false ∧
    ∀ p, p ∈ get_products rows → hasUpperAscii p.number = true → p ≠ selected := by
  have hnum : selected.number = pyStrip (splitX (normalizeMsg body)).1 := by
    simp only [resolveProduct] at hsel
    have h := List.find?_some hsel
    exact (strEq_iff _ _).mp h
  have key : ∀ c ∈ (pyStrip (splitX (normalizeMsg body)).1).data,
      (decide (65 ≤ c.toNat) && decide (c.toNat ≤ 90)) = false := by
    intro c hc
    have hc1 : c ∈ (splitXList (normalizeMsg body).data).1 := mem_stripList hc
    have hc2 : c ∈ (pyStrip body).data.map lowerChar := mem_splitXList_left hc1
    rcases List.mem_map.mp hc2 with ⟨a, _, rfl⟩
    exact lowerChar_not_upper a
  have hlow : hasUpperAscii selected.number = false := by
    rw [hnum, hasUpperAscii]
    cases hany : (pyStrip (splitX (normalizeMsg body)).1).data.any
        (fun c => decide (65 ≤ c.toNat) && decide (c.toNat ≤ 90)) with
    | false => rfl
    | true =>
      rcases List.any_eq_true.mp hany with ⟨c, hc, hcp⟩
      rw [key c hc] at hcp
      cases hcp
  exact ⟨hlow, fun p hp hup hpe => by rw [hpe, hlow] at hup; cases hup⟩

theorem C10_lowercase_token_witness :
    isMenuMsg (normalizeMsg "A1 x 2") = false ∧
    strHasSub (normalizeMsg "A1 x 2") "x" = true ∧
    parseInt? (splitX (normalizeMsg "A1 x 2")).2 = some 2 ∧
    (0 : Int) < 2 ∧
    resolveProduct (get_products upperRows) (pyStrip (splitX (normalizeMsg "A1 x 2")).1) =
      some ⟨"pa", "a1", "Chico", (4 : ℚ)⟩ ∧
    (hasUpperAscii (⟨"pa", "a1", "Chico", (4 : ℚ)⟩ : Product).number = false ∧
     ∀ p, p ∈ get_products upperRows → hasUpperAscii p.number = true →
       p ≠ ⟨"pa", "a1", "Chico", (4 : ℚ)⟩) :=
  ⟨by decide, by decide, by decide, by decide, by decide,
    C10_lowercase_token tacoConfig upperRows "A1 x 2" "wa:1" "100" 2 ⟨"pa", "a1", "Chico", 4⟩
      (by decide) (by decide) (by decide) (by decide) (by decide)⟩
